import Mathlib

/-!
Verification of the `RepoCommit` data model and accessor methods from
`github3/repos/commit.py`.

The embedding translates the Python module shallowly:
  * JSON values become the inductive type `Json` (numbers as integers,
    which is all the commit payloads in scope use).
  * Python `None` is identified with JSON null (`Json.null`), as in the
    source both arise from `dict.get` misses and JSON deserialization.
  * fallible Python code (attribute errors, HTTP-status errors, `int()`
    conversion errors) returns `Except PyError`.
  * external collaborators of the module (the base-model attribute
    helpers, the HTTP boolean/json fetch contract, the URL builder and
    the paginated iterator) are not part of the source slice; they are
    modelled from the specification, each marked `Modelled from the
    spec:` in its doc comment.
-/

/-- A JSON value. Numbers are modelled as integers: the commit payloads in
scope (`stats`, `sha`, `files`, ...) only carry integral numbers. -/
inductive Json where
  | null : Json
  | bool (b : Bool) : Json
  | num (n : Int) : Json
  | str (s : String) : Json
  | arr (elems : List Json) : Json
  | obj (fields : List (String × Json)) : Json


/-- Errors a Python-level evaluation can raise in this module. -/
inductive PyError where
  | attributeError : PyError
  | typeError : PyError
  | valueError : PyError
  | httpError (status : Nat) : PyError


/-- Python truthiness of a JSON value: `None`, `False`, `0`, the empty
string, the empty list and the empty dict are falsy. -/
def Json.truthy : Json → Bool
  | .null => false
  | .bool b => b
  | .num n => n != 0
  | .str s => s != ""
  | .arr elems => !elems.isEmpty
  | .obj fields => !fields.isEmpty

/-- First binding of `key` in a JSON-object field list (Python dicts have
unique keys; lookup of the first match models dict lookup). -/
def lookupKey (fields : List (String × Json)) (key : String) : Option Json :=
  (fields.find? (fun p => p.1 == key)).map Prod.snd

/-- Modelled from the spec: the base model's attribute-extraction helper
`_get_attribute(json, key, fallback)` returns the value stored under
`key`, or the fallback (null by default) when the key is absent. -/
def getAttr (fields : List (String × Json)) (key : String)
    (fallback : Json := Json.null) : Json :=
  (lookupKey fields key).getD fallback

/-- Python `value.get(key)` on a JSON value: succeeds with the stored
value (null when the key is absent) if the value is a dict, and raises an
`AttributeError` otherwise. -/
def dictGet (j : Json) (key : String) : Except PyError Json :=
  match j with
  | .obj fields => .ok (getAttr fields key)
  | _ => .error .attributeError

/-- Modelled from the spec: `ShortUser`, an external thin sub-object
constructor that wraps the raw JSON fragment. -/
structure ShortUser where
  payload : Json


/-- Modelled from the spec: `ShortCommit`, an external thin sub-object
constructor; its `message` attribute mirrors the fragment's `message`
key (null when absent or when the fragment is not an object). -/
structure ShortCommit where
  payload : Json
  message : Json


/-- Modelled from the spec: construction of a `ShortCommit` from its raw
JSON fragment. -/
def ShortCommit.ofJson (j : Json) : ShortCommit :=
  { payload := j
    message :=
      match j with
      | .obj fields => getAttr fields "message"
      | _ => Json.null }

/-- The `RepoCommit` data model: the attributes `_update_attributes`
populates. -/
structure RepoCommit where
  sha : Json
  author : Option ShortUser
  committer : Option ShortUser
  commit : Option ShortCommit
  additions : Json
  deletions : Json
  total : Json
  files : Json
  uniq : Json
  message : Json


/-- The `stats` branch of `_update_attributes`: the three counters default
to `0`; when `stats` is truthy they are re-read with
`commit['stats'].get(...)` (so a truthy non-dict `stats` raises an
`AttributeError`, and a truthy dict missing a key yields null). -/
def statsTriple (stats : Json) : Except PyError (Json × Json × Json) :=
  if stats.truthy then do
    let a ← dictGet stats "additions"
    let d ← dictGet stats "deletions"
    let t ← dictGet stats "total"
    pure (a, d, t)
  else
    pure (Json.num 0, Json.num 0, Json.num 0)

/-- `RepoCommit._update_attributes` on a JSON mapping: populates every
attribute; the only failing path is a truthy non-dict `stats` value. -/
def updateAttributes (commit : List (String × Json)) :
    Except PyError RepoCommit := do
  let author := (lookupKey commit "author").map ShortUser.mk
  let committer := (lookupKey commit "committer").map ShortUser.mk
  let commitObj := (lookupKey commit "commit").map ShortCommit.ofJson
  let sha := getAttr commit "sha"
  let stats := getAttr commit "stats"
  let counters ← statsTriple stats
  let files := getAttr commit "files" (Json.arr [])
  let message :=
    match commitObj with
    | some sc => sc.message
    | none => Json.null
  pure
    { sha := sha
      author := author
      committer := committer
      commit := commitObj
      additions := counters.1
      deletions := counters.2.1
      total := counters.2.2
      files := files
      uniq := sha
      message := message }

/-- `RepoCommit._repr`: formats the first seven characters of `sha` into
a fixed template. `sha[:7]` is a string slice, so a non-string `sha`
(in particular a null one) raises a `TypeError`. -/
def pyRepr (c : RepoCommit) : Except PyError String :=
  match c.sha with
  | .str s => .ok ("<Repository Commit [" ++ s.take 7 ++ "]>")
  | _ => .error .typeError

/-- Modelled from the spec: equality of two `RepoCommit` instances is
delegated to the base model, which compares the `_uniq` identifiers. -/
def pyEq (c1 c2 : RepoCommit) : Prop :=
  c1.uniq = c2.uniq

/-- Modelled from the spec: hashing is defined solely from the `_uniq`
identifier; the hash input it feeds to Python's `hash` builtin. -/
def pyHashKey (c : RepoCommit) : Json :=
  c.uniq

/-- Substring test on character lists: `needle` occurs contiguously in
`hay`. -/
def listContains (hay needle : List Char) : Bool :=
  (List.range (hay.length + 1)).any fun i => needle.isPrefixOf (hay.drop i)

/-- Substring test on strings. -/
def strContains (hay needle : String) : Bool :=
  listContains hay.toList needle.toList

/-- An HTTP GET request as issued by `diff`/`patch`: the target URL and
the `Accept` header value. -/
structure HttpRequest where
  url : String
  accept : String

/-- An HTTP response for the raw-body endpoints: status code and body
bytes. -/
structure HttpResponse where
  status : Nat
  content : List Nat

/-- Modelled from the spec: the session helper `_boolean(resp, 200, 404)`
is `True` on the accepted status, `False` on the benign status, and
raises a client error for any other status. -/
def booleanCheck (resp : HttpResponse) (trueCode falseCode : Nat) :
    Except PyError Bool :=
  if resp.status = trueCode then .ok true
  else if resp.status = falseCode then .ok false
  else .error (.httpError resp.status)

/-- The request `diff` issues against the commit resource URL `api`. -/
def diffRequest (api : String) : HttpRequest :=
  { url := api, accept := "application/vnd.github.diff" }

/-- `RepoCommit.diff` applied to the response of its request: the body on
200, empty bytes on 404, an error otherwise. -/
def diffResult (resp : HttpResponse) : Except PyError (List Nat) := do
  let ok200 ← booleanCheck resp 200 404
  pure (if ok200 then resp.content else [])

/-- The request `patch` issues against the commit resource URL `api`. -/
def patchRequest (api : String) : HttpRequest :=
  { url := api, accept := "application/vnd.github.patch" }

/-- `RepoCommit.patch` applied to the response of its request; the body
repeats the `diff` logic verbatim. -/
def patchResult (resp : HttpResponse) : Except PyError (List Nat) := do
  let ok200 ← booleanCheck resp 200 404
  pure (if ok200 then resp.content else [])

/-- Modelled from the spec: the URL builder appends a path segment to a
base resource URL. -/
def buildUrl (base segment : String) : String :=
  base ++ "/" ++ segment

/-- The URL `status` fetches, given the commit resource URL `api`. -/
def statusUrl (api : String) : String :=
  buildUrl api "status"

/-- An HTTP response whose body has already been deserialized to JSON. -/
structure JsonResponse where
  status : Nat
  body : Json

/-- Modelled from the spec: the session helper `_json(resp, 200)` expects
exactly status 200 and returns the deserialized body; any other status
surfaces as a client error. -/
def jsonFetch (resp : JsonResponse) : Except PyError Json :=
  if resp.status = 200 then .ok resp.body else .error (.httpError resp.status)

/-- The `CombinedStatus` sub-resource type, external and thin: it wraps
the raw JSON payload. -/
structure CombinedStatus where
  payload : Json

/-- Modelled from the spec: `_instance_or_null` constructs the instance
from a truthy JSON body and returns null for an empty/falsy body. -/
def instanceOrNull (j : Json) : Option CombinedStatus :=
  if j.truthy then some ⟨j⟩ else none

/-- `RepoCommit.status` applied to the response of its request: requires
status 200, then deserializes into `CombinedStatus` or null. -/
def statusResult (resp : JsonResponse) : Except PyError (Option CombinedStatus) := do
  let j ← jsonFetch resp
  pure (instanceOrNull j)

/-- A Python value passed as the `number` argument of `comments`. -/
inductive PyVal where
  | int (i : Int) : PyVal
  | str (s : String) : PyVal
  | none : PyVal

/-- Surrounding ASCII whitespace stripped from a character list. -/
def stripWs (cs : List Char) : List Char :=
  ((cs.dropWhile Char.isWhitespace).reverse.dropWhile Char.isWhitespace).reverse

/-- The value of a non-empty all-digit character list, in decimal. -/
def digitsVal (cs : List Char) : Option Nat :=
  if cs.isEmpty then none
  else if cs.all Char.isDigit then
    some (cs.foldl (fun acc c => 10 * acc + (c.toNat - 48)) 0)
  else none

/-- Decimal integer literal parse of a string: optional surrounding
whitespace, optional sign, at least one digit. -/
def pyIntOfString (s : String) : Option Int :=
  match stripWs s.toList with
  | '-' :: rest => (digitsVal rest).map (fun n => -(n : Int))
  | '+' :: rest => (digitsVal rest).map (fun n => (n : Int))
  | cs => (digitsVal cs).map (fun n => (n : Int))

/-- Python's `int(...)` builtin on the modelled values: integers pass
through, strings are parsed as an optionally signed decimal integer
(surrounding whitespace allowed) or raise a `ValueError`, `None` raises
a `TypeError`. -/
def pyToInt : PyVal → Except PyError Int
  | .int i => .ok i
  | .str s =>
    match pyIntOfString s with
    | some i => .ok i
    | Option.none => .error .valueError
  | .none => .error .typeError

/-- The `RepoComment` sub-resource type, external and thin: it wraps the
raw JSON payload. -/
structure RepoComment where
  payload : Json

/-- The URL `comments` fetches, given the commit resource URL `api`. -/
def commentsUrl (api : String) : String :=
  buildUrl api "comments"

/-- Modelled from the spec: the paginated-iteration capability `_iter`
yields all available items when the count is negative (-1 meaning
unbounded) and caps the yielded count at any non-negative value. -/
def iterYield (count : Int) (available : List RepoComment) : List RepoComment :=
  if 0 ≤ count then available.take count.toNat else available

/-- `RepoCommit.comments`: coerces `number` with `int(...)` and hands the
result to the pagination capability over the available comments. -/
def commentsResult (number : PyVal) (available : List RepoComment) :
    Except PyError (List RepoComment) := do
  let n ← pyToInt number
  pure (iterYield n available)

/-! ## Helper lemmas about the constructor -/

theorem getAttr_of_lookup_none {fields : List (String × Json)} {key : String}
    {fallback : Json} (h : lookupKey fields key = none) :
    getAttr fields key fallback = fallback := by
  simp [getAttr, h]

theorem getAttr_of_lookup_some {fields : List (String × Json)} {key : String}
    {v : Json} (fallback : Json) (h : lookupKey fields key = some v) :
    getAttr fields key fallback = v := by
  simp [getAttr, h]

theorem statsTriple_falsy {stats : Json} (h : stats.truthy = false) :
    statsTriple stats = .ok (Json.num 0, Json.num 0, Json.num 0) := by
  simp only [statsTriple, h, Bool.false_eq_true, if_false]
  rfl

theorem statsTriple_obj (fields : List (String × Json))
    (h : Json.truthy (Json.obj fields) = true) :
    statsTriple (Json.obj fields) =
      .ok (getAttr fields "additions", getAttr fields "deletions",
           getAttr fields "total") := by
  simp only [statsTriple, h, if_true]
  rfl

/-- The constructor, unfolded to a single bind over the `stats` branch. -/
theorem updateAttributes_eq (commit : List (String × Json)) :
    updateAttributes commit =
      Except.bind (statsTriple (getAttr commit "stats")) (fun counters =>
        Except.ok
          { sha := getAttr commit "sha"
            author := (lookupKey commit "author").map ShortUser.mk
            committer := (lookupKey commit "committer").map ShortUser.mk
            commit := (lookupKey commit "commit").map ShortCommit.ofJson
            additions := counters.1
            deletions := counters.2.1
            total := counters.2.2
            files := getAttr commit "files" (Json.arr [])
            uniq := getAttr commit "sha"
            message :=
              match (lookupKey commit "commit").map ShortCommit.ofJson with
              | some sc => sc.message
              | none => Json.null }) := rfl

/-- Introduction form: a successful `stats` branch determines the whole
constructed record. -/
theorem updateAttributes_ok_intro (commit : List (String × Json))
    (counters : Json × Json × Json)
    (hst : statsTriple (getAttr commit "stats") = .ok counters) :
    updateAttributes commit =
      Except.ok
        { sha := getAttr commit "sha"
          author := (lookupKey commit "author").map ShortUser.mk
          committer := (lookupKey commit "committer").map ShortUser.mk
          commit := (lookupKey commit "commit").map ShortCommit.ofJson
          additions := counters.1
          deletions := counters.2.1
          total := counters.2.2
          files := getAttr commit "files" (Json.arr [])
          uniq := getAttr commit "sha"
          message :=
            match (lookupKey commit "commit").map ShortCommit.ofJson with
            | some sc => sc.message
            | none => Json.null } := by
  rw [updateAttributes_eq, hst]
  rfl

/-- Elimination form: every successfully constructed record has the
attribute values the source assigns. -/
theorem updateAttributes_ok_elim {commit : List (String × Json)}
    {c : RepoCommit} (h : updateAttributes commit = Except.ok c) :
    ∃ counters, statsTriple (getAttr commit "stats") = Except.ok counters ∧
      c.sha = getAttr commit "sha" ∧
      c.author = (lookupKey commit "author").map ShortUser.mk ∧
      c.committer = (lookupKey commit "committer").map ShortUser.mk ∧
      c.commit = (lookupKey commit "commit").map ShortCommit.ofJson ∧
      c.additions = counters.1 ∧
      c.deletions = counters.2.1 ∧
      c.total = counters.2.2 ∧
      c.files = getAttr commit "files" (Json.arr []) ∧
      c.uniq = getAttr commit "sha" := by
  rw [updateAttributes_eq] at h
  cases hst : statsTriple (getAttr commit "stats") with
  | error e =>
    rw [hst] at h
    exact absurd h (by simp [Except.bind])
  | ok counters =>
    rw [hst] at h
    simp only [Except.bind] at h
    injection h with h
    subst h
    exact ⟨counters, rfl, rfl, rfl, rfl, rfl, rfl, rfl, rfl, rfl, rfl⟩

/-- The `_uniq` identifier of every constructed record is its `sha`. -/
theorem uniq_eq_sha {commit : List (String × Json)} {c : RepoCommit}
    (h : updateAttributes commit = Except.ok c) : c.uniq = c.sha := by
  obtain ⟨counters, _, hsha, _, _, _, _, _, _, _, huniq⟩ :=
    updateAttributes_ok_elim h
  rw [huniq, hsha]

/-! ## Claim theorems -/

/-- C1: a payload with no `stats` key, or with a falsy `stats` value,
constructs a `RepoCommit` whose `additions`, `deletions` and `total` are
all `0`; a payload whose `stats` is `{"additions": a, "deletions": d,
"total": t}` constructs one whose counters are exactly `a`, `d`, `t`. -/
theorem C1_stats_counters :
    (∀ commit : List (String × Json), lookupKey commit "stats" = none →
      ∃ c, updateAttributes commit = Except.ok c ∧
        c.additions = Json.num 0 ∧ c.deletions = Json.num 0 ∧
        c.total = Json.num 0) ∧
    (∀ commit : List (String × Json),
      Json.truthy (getAttr commit "stats") = false →
      ∃ c, updateAttributes commit = Except.ok c ∧
        c.additions = Json.num 0 ∧ c.deletions = Json.num 0 ∧
        c.total = Json.num 0) ∧
    (∀ (commit : List (String × Json)) (a d t : Int),
      lookupKey commit "stats" = some (Json.obj
        [("additions", Json.num a), ("deletions", Json.num d),
         ("total", Json.num t)]) →
      ∃ c, updateAttributes commit = Except.ok c ∧
        c.additions = Json.num a ∧ c.deletions = Json.num d ∧
        c.total = Json.num t) := by
  refine ⟨?_, ?_, ?_⟩
  · intro commit h
    have hfalsy : Json.truthy (getAttr commit "stats") = false := by
      rw [getAttr_of_lookup_none h]
      rfl
    exact ⟨_, updateAttributes_ok_intro commit _ (statsTriple_falsy hfalsy),
           rfl, rfl, rfl⟩
  · intro commit hfalsy
    exact ⟨_, updateAttributes_ok_intro commit _ (statsTriple_falsy hfalsy),
           rfl, rfl, rfl⟩
  · intro commit a d t h
    have hget := getAttr_of_lookup_some Json.null h
    have hst := statsTriple_obj
      [("additions", Json.num a), ("deletions", Json.num d),
       ("total", Json.num t)] rfl
    rw [← hget] at hst
    exact ⟨_, updateAttributes_ok_intro commit _ hst, rfl, rfl, rfl⟩

/-- C1 witness: concrete payloads for the no-stats case and for
`stats = {"additions": 5, "deletions": 3, "total": 8}`. -/
theorem C1_witness :
    (∃ c, updateAttributes [("sha", Json.str "abc")] = Except.ok c ∧
      c.additions = Json.num 0 ∧ c.deletions = Json.num 0 ∧
      c.total = Json.num 0) ∧
    (∃ c, updateAttributes
        [("stats", Json.obj
          [("additions", Json.num 5), ("deletions", Json.num 3),
           ("total", Json.num 8)])] = Except.ok c ∧
      c.additions = Json.num 5 ∧ c.deletions = Json.num 3 ∧
      c.total = Json.num 8) :=
  ⟨C1_stats_counters.1 [("sha", Json.str "abc")] rfl,
   C1_stats_counters.2.2 _ 5 3 8 rfl⟩

/-- C3: for constructed instances, Python equality holds exactly when the
`sha` values agree (null `sha` values included), and the hash input is
determined by `sha` alone. -/
theorem C3_equality_and_hash_by_sha :
    ∀ (j1 j2 : List (String × Json)) (c1 c2 : RepoCommit),
      updateAttributes j1 = Except.ok c1 →
      updateAttributes j2 = Except.ok c2 →
      (pyEq c1 c2 ↔ c1.sha = c2.sha) ∧
      (c1.sha = c2.sha → pyHashKey c1 = pyHashKey c2) := by
  intro j1 j2 c1 c2 h1 h2
  have e1 := uniq_eq_sha h1
  have e2 := uniq_eq_sha h2
  constructor
  · unfold pyEq
    rw [e1, e2]
  · intro hsha
    unfold pyHashKey
    rw [e1, e2, hsha]

/-- C3 witness: two payloads with the same `sha` but different `files`
construct instances that the equality and hash contracts relate. -/
theorem C3_witness :
    (pyEq
      { sha := Json.str "abc", author := none, committer := none,
        commit := none, additions := Json.num 0, deletions := Json.num 0,
        total := Json.num 0, files := Json.arr [], uniq := Json.str "abc",
        message := Json.null }
      { sha := Json.str "abc", author := none, committer := none,
        commit := none, additions := Json.num 0, deletions := Json.num 0,
        total := Json.num 0, files := Json.arr [Json.null],
        uniq := Json.str "abc", message := Json.null } ↔
      Json.str "abc" = Json.str "abc") ∧
    (Json.str "abc" = Json.str "abc" →
      pyHashKey
        { sha := Json.str "abc", author := none, committer := none,
          commit := none, additions := Json.num 0, deletions := Json.num 0,
          total := Json.num 0, files := Json.arr [], uniq := Json.str "abc",
          message := Json.null } =
      pyHashKey
        { sha := Json.str "abc", author := none, committer := none,
          commit := none, additions := Json.num 0, deletions := Json.num 0,
          total := Json.num 0, files := Json.arr [Json.null],
          uniq := Json.str "abc", message := Json.null }) :=
  C3_equality_and_hash_by_sha
    [("sha", Json.str "abc")]
    [("sha", Json.str "abc"), ("files", Json.arr [Json.null])]
    _ _ rfl rfl

/-- C4: construction succeeds when `stats` is absent, and each absent
optional key resolves to its null/default: `author`, `committer` and
`commit` to null, the counters to `0`, `files` to the empty list, and an
absent `sha` to null — with no error at construction time. -/
theorem C4_construction_tolerates_missing_keys :
    (∀ commit : List (String × Json), lookupKey commit "stats" = none →
      ∃ c, updateAttributes commit = Except.ok c) ∧
    (∀ (commit : List (String × Json)) (c : RepoCommit),
      updateAttributes commit = Except.ok c →
      (lookupKey commit "author" = none → c.author = none) ∧
      (lookupKey commit "committer" = none → c.committer = none) ∧
      (lookupKey commit "commit" = none → c.commit = none) ∧
      (lookupKey commit "stats" = none →
        c.additions = Json.num 0 ∧ c.deletions = Json.num 0 ∧
        c.total = Json.num 0) ∧
      (lookupKey commit "files" = none → c.files = Json.arr []) ∧
      (lookupKey commit "sha" = none → c.sha = Json.null)) := by
  constructor
  · intro commit h
    have hfalsy : Json.truthy (getAttr commit "stats") = false := by
      rw [getAttr_of_lookup_none h]
      rfl
    exact ⟨_, updateAttributes_ok_intro commit _ (statsTriple_falsy hfalsy)⟩
  · intro commit c h
    obtain ⟨counters, hst, hsha, hauthor, hcommitter, hcommit, hadd, hdel,
            htot, hfiles, _⟩ := updateAttributes_ok_elim h
    refine ⟨?_, ?_, ?_, ?_, ?_, ?_⟩
    · intro hk
      rw [hauthor, hk]
      rfl
    · intro hk
      rw [hcommitter, hk]
      rfl
    · intro hk
      rw [hcommit, hk]
      rfl
    · intro hk
      have hfalsy : Json.truthy (getAttr commit "stats") = false := by
        rw [getAttr_of_lookup_none hk]
        rfl
      rw [statsTriple_falsy hfalsy] at hst
      injection hst with hst
      rw [hadd, hdel, htot, ← hst]
      exact ⟨rfl, rfl, rfl⟩
    · intro hk
      rw [hfiles, getAttr_of_lookup_none hk]
    · intro hk
      rw [hsha, getAttr_of_lookup_none hk]

/-- C4 witness: the empty payload constructs successfully with every
optional attribute at its null/default value. -/
theorem C4_witness :
    (∃ c, updateAttributes ([] : List (String × Json)) = Except.ok c) ∧
    ({ sha := Json.null, author := none, committer := none, commit := none,
       additions := Json.num 0, deletions := Json.num 0,
       total := Json.num 0, files := Json.arr [], uniq := Json.null,
       message := Json.null } : RepoCommit).author = none ∧
    ({ sha := Json.null, author := none, committer := none, commit := none,
       additions := Json.num 0, deletions := Json.num 0,
       total := Json.num 0, files := Json.arr [], uniq := Json.null,
       message := Json.null } : RepoCommit).sha = Json.null :=
  ⟨C4_construction_tolerates_missing_keys.1 [] rfl,
   ((C4_construction_tolerates_missing_keys.2 [] _ rfl).1 rfl),
   ((C4_construction_tolerates_missing_keys.2 [] _ rfl).2.2.2.2.2 rfl)⟩

/-- C9: when the payload's `stats` value is a truthy object missing one
of the keys `additions`, `deletions` or `total`, the corresponding
attribute of the constructed record is null, not the integer default
`0`. -/
theorem C9_truthy_stats_missing_counter_is_null :
    ∀ (commit fields : List (String × Json)) (c : RepoCommit),
      lookupKey commit "stats" = some (Json.obj fields) →
      Json.truthy (Json.obj fields) = true →
      updateAttributes commit = Except.ok c →
      (lookupKey fields "additions" = none →
        c.additions = Json.null ∧ c.additions ≠ Json.num 0) ∧
      (lookupKey fields "deletions" = none →
        c.deletions = Json.null ∧ c.deletions ≠ Json.num 0) ∧
      (lookupKey fields "total" = none →
        c.total = Json.null ∧ c.total ≠ Json.num 0) := by
  intro commit fields c hk htruthy h
  obtain ⟨counters, hst, _, _, _, _, hadd, hdel, htot, _, _⟩ :=
    updateAttributes_ok_elim h
  rw [getAttr_of_lookup_some Json.null hk, statsTriple_obj _ htruthy] at hst
  injection hst with hst
  refine ⟨?_, ?_, ?_⟩
  · intro hmiss
    rw [hadd, ← hst, getAttr_of_lookup_none hmiss]
    exact ⟨rfl, by simp⟩
  · intro hmiss
    have : counters.2.1 = Json.null := by
      rw [← hst, getAttr_of_lookup_none hmiss]
    rw [hdel, this]
    exact ⟨rfl, by simp⟩
  · intro hmiss
    have : counters.2.2 = Json.null := by
      rw [← hst, getAttr_of_lookup_none hmiss]
    rw [htot, this]
    exact ⟨rfl, by simp⟩

/-- C9 witness: `stats = {"deletions": 1}` is truthy and lacks
`additions` and `total`, so those attributes come out null. -/
theorem C9_witness :
    ({ sha := Json.null, author := none, committer := none, commit := none,
       additions := Json.null, deletions := Json.num 1, total := Json.null,
       files := Json.arr [], uniq := Json.null,
       message := Json.null } : RepoCommit).additions = Json.null ∧
    ({ sha := Json.null, author := none, committer := none, commit := none,
       additions := Json.null, deletions := Json.num 1, total := Json.null,
       files := Json.arr [], uniq := Json.null,
       message := Json.null } : RepoCommit).additions ≠ Json.num 0 :=
  (C9_truthy_stats_missing_counter_is_null
    [("stats", Json.obj [("deletions", Json.num 1)])]
    [("deletions", Json.num 1)] _ rfl rfl rfl).1 rfl

/-- C10: `_repr` raises a `TypeError` on every record whose `sha` is
null, even though construction itself accepts a payload with no `sha`
key; the representation is only safe when `sha` is a string. -/
theorem C10_repr_partial_on_null_sha :
    (∀ c : RepoCommit, c.sha = Json.null →
      pyRepr c = Except.error PyError.typeError) ∧
    (∀ commit : List (String × Json), lookupKey commit "sha" = none →
      ∀ c, updateAttributes commit = Except.ok c → c.sha = Json.null) := by
  constructor
  · intro c h
    unfold pyRepr
    rw [h]
  · intro commit hk c h
    obtain ⟨_, _, hsha, _⟩ := updateAttributes_ok_elim h
    rw [hsha, getAttr_of_lookup_none hk]

/-- C10 witness: the record built from the empty payload has a null `sha`
and its representation raises. -/
theorem C10_witness :
    ({ sha := Json.null, author := none, committer := none, commit := none,
       additions := Json.num 0, deletions := Json.num 0,
       total := Json.num 0, files := Json.arr [], uniq := Json.null,
       message := Json.null } : RepoCommit).sha = Json.null ∧
    pyRepr
      { sha := Json.null, author := none, committer := none, commit := none,
        additions := Json.num 0, deletions := Json.num 0,
        total := Json.num 0, files := Json.arr [], uniq := Json.null,
        message := Json.null } = Except.error PyError.typeError :=
  ⟨C10_repr_partial_on_null_sha.2 [] rfl _ rfl,
   C10_repr_partial_on_null_sha.1 _ rfl⟩

/-- C2: `diff` returns the raw body on status 200, the empty byte
sequence on status 404, and propagates the client error on every other
status. -/
theorem C2_diff_contract :
    ∀ resp : HttpResponse,
      (resp.status = 200 → diffResult resp = Except.ok resp.content) ∧
      (resp.status = 404 → diffResult resp = Except.ok []) ∧
      (resp.status ≠ 200 → resp.status ≠ 404 →
        diffResult resp = Except.error (PyError.httpError resp.status)) := by
  intro resp
  refine ⟨?_, ?_, ?_⟩
  · intro h
    simp [diffResult, booleanCheck, h, Except.bind]
  · intro h
    simp [diffResult, booleanCheck, h, Except.bind]
  · intro h200 h404
    simp [diffResult, booleanCheck, h200, h404, Except.bind]

/-- C2 witness: concrete responses with statuses 200, 404 and 500. -/
theorem C2_witness :
    diffResult { status := 200, content := [104, 105] } =
      Except.ok [104, 105] ∧
    diffResult { status := 404, content := [104] } = Except.ok [] ∧
    diffResult { status := 500, content := [104] } =
      Except.error (PyError.httpError 500) :=
  ⟨(C2_diff_contract _).1 rfl, (C2_diff_contract _).2.1 rfl,
   (C2_diff_contract _).2.2 (by decide) (by decide)⟩

/-- C5: `status` targets `<commit-url>/status`, errors on every non-200
status, returns null on a falsy 200 body and a `CombinedStatus` wrapping
a truthy 200 body. -/
theorem C5_status_contract :
    (∀ api : String, statusUrl api = api ++ "/status") ∧
    (∀ resp : JsonResponse, resp.status ≠ 200 →
      statusResult resp = Except.error (PyError.httpError resp.status)) ∧
    (∀ resp : JsonResponse, resp.status = 200 →
      Json.truthy resp.body = false → statusResult resp = Except.ok none) ∧
    (∀ resp : JsonResponse, resp.status = 200 →
      Json.truthy resp.body = true →
      statusResult resp = Except.ok (some ⟨resp.body⟩)) := by
  refine ⟨?_, ?_, ?_, ?_⟩
  · intro api
    show api ++ "/" ++ "status" = api ++ "/status"
    rw [String.append_assoc]
    rfl
  · intro resp h
    simp [statusResult, jsonFetch, h, Except.bind]
  · intro resp h200 hbody
    simp [statusResult, jsonFetch, h200, instanceOrNull, hbody, Except.bind]
  · intro resp h200 hbody
    simp [statusResult, jsonFetch, h200, instanceOrNull, hbody, Except.bind]

/-- C5 witness: concrete responses exercising the error, null and
constructed cases, plus a concrete URL. -/
theorem C5_witness :
    statusUrl "https://api.example/commits/abc" =
      "https://api.example/commits/abc" ++ "/status" ∧
    statusResult { status := 404, body := Json.null } =
      Except.error (PyError.httpError 404) ∧
    statusResult { status := 200, body := Json.obj [] } = Except.ok none ∧
    statusResult { status := 200, body := Json.obj [("state", Json.str "ok")] } =
      Except.ok (some ⟨Json.obj [("state", Json.str "ok")]⟩) :=
  ⟨C5_status_contract.1 "https://api.example/commits/abc",
   C5_status_contract.2.1 _ (by decide),
   C5_status_contract.2.2.1 _ rfl rfl,
   C5_status_contract.2.2.2 _ rfl rfl⟩

/-- C6: `comments` coerces `number` through `int(...)`: -1 yields the
whole available sequence, a non-negative value caps the yielded count at
that value, and a non-coercible value fails fast with a conversion
error. -/
theorem C6_comments_number_coercion :
    (∀ available : List RepoComment,
      commentsResult (PyVal.int (-1)) available = Except.ok available) ∧
    (∀ (k : Int) (available : List RepoComment), 0 ≤ k →
      commentsResult (PyVal.int k) available =
        Except.ok (available.take k.toNat) ∧
      (available.take k.toNat).length ≤ k.toNat) ∧
    (∀ available : List RepoComment,
      commentsResult (PyVal.str "five") available =
        Except.error PyError.valueError) ∧
    (∀ available : List RepoComment,
      commentsResult PyVal.none available =
        Except.error PyError.typeError) := by
  refine ⟨?_, ?_, ?_, ?_⟩
  · intro available
    simp [commentsResult, pyToInt, iterYield, Except.bind]
  · intro k available hk
    constructor
    · simp [commentsResult, pyToInt, iterYield, hk, Except.bind]
    · rw [List.length_take]
      exact min_le_left _ _
  · intro available
    have h5 : pyIntOfString "five" = none := by decide
    simp [commentsResult, pyToInt, h5, Except.bind]
  · intro available
    simp [commentsResult, pyToInt, Except.bind]

/-- C6 witness: five available comments; -1 yields all five, 2 yields
the first two, and the non-numeric string "five" errors. -/
theorem C6_witness :
    commentsResult (PyVal.int (-1))
      [⟨Json.num 1⟩, ⟨Json.num 2⟩, ⟨Json.num 3⟩, ⟨Json.num 4⟩,
       ⟨Json.num 5⟩] =
      Except.ok
        [⟨Json.num 1⟩, ⟨Json.num 2⟩, ⟨Json.num 3⟩, ⟨Json.num 4⟩,
         ⟨Json.num 5⟩] ∧
    commentsResult (PyVal.int 2)
      [⟨Json.num 1⟩, ⟨Json.num 2⟩, ⟨Json.num 3⟩, ⟨Json.num 4⟩,
       ⟨Json.num 5⟩] =
      Except.ok
        (([⟨Json.num 1⟩, ⟨Json.num 2⟩, ⟨Json.num 3⟩, ⟨Json.num 4⟩,
           ⟨Json.num 5⟩] : List RepoComment).take (Int.toNat 2)) ∧
    commentsResult (PyVal.str "five")
      [⟨Json.num 1⟩, ⟨Json.num 2⟩, ⟨Json.num 3⟩, ⟨Json.num 4⟩,
       ⟨Json.num 5⟩] = Except.error PyError.valueError :=
  ⟨C6_comments_number_coercion.1 _,
   (C6_comments_number_coercion.2.1 2 _ (by decide)).1,
   C6_comments_number_coercion.2.2.1 _⟩

/-- C7: `patch` shares `diff`'s URL and its whole response handling; the
two differ only in the `Accept` header value each sends. -/
theorem C7_patch_refines_diff :
    (∀ api : String, (patchRequest api).url = (diffRequest api).url) ∧
    (∀ api : String,
      (diffRequest api).accept = "application/vnd.github.diff") ∧
    (∀ api : String,
      (patchRequest api).accept = "application/vnd.github.patch") ∧
    (∀ resp : HttpResponse, patchResult resp = diffResult resp) :=
  ⟨fun _ => rfl, fun _ => rfl, fun _ => rfl, fun _ => rfl⟩

/-- C8: the representation of a record with string `sha` embeds the first
seven characters of the `sha`; for `sha = "abcdef1234567890"` it contains
the substring `"abcdef1"` and not the full `sha`. -/
theorem C8_repr_short_sha :
    (∀ (c : RepoCommit) (s : String), c.sha = Json.str s →
      pyRepr c = Except.ok ("<Repository Commit [" ++ s.take 7 ++ "]>")) ∧
    (∀ c : RepoCommit, c.sha = Json.str "abcdef1234567890" →
      ∃ r, pyRepr c = Except.ok r ∧ strContains r "abcdef1" = true ∧
        strContains r "abcdef1234567890" = false) := by
  constructor
  · intro c s h
    unfold pyRepr
    rw [h]
  · intro c h
    refine ⟨"<Repository Commit [abcdef1]>", ?_, ?_, ?_⟩
    · unfold pyRepr
      rw [h]
      rfl
    · decide
    · decide

/-- C8 witness: a concrete record with `sha = "abcdef1234567890"`. -/
theorem C8_witness :
    ∃ r, pyRepr
      { sha := Json.str "abcdef1234567890", author := none,
        committer := none, commit := none, additions := Json.num 0,
        deletions := Json.num 0, total := Json.num 0, files := Json.arr [],
        uniq := Json.str "abcdef1234567890", message := Json.null } =
        Except.ok r ∧
      strContains r "abcdef1" = true ∧
      strContains r "abcdef1234567890" = false :=
  C8_repr_short_sha.2 _ rfl
